import Mathlib

/-!
Shallow embedding of `src/system_architecture/solid/main.go`, a Go program
demonstrating the five SOLID principles.  Go `float64` values are modelled
as exact rationals (`ℚ`), matching the spec's reading "exact floating-point
equality up to standard rounding"; every Go statement that prints a line is
modelled as a function returning that line as a `String` (without the
trailing newline); a Go interface value that may be `nil` is modelled as an
`Option`, with `none` standing for `nil`, and a method dispatch on a `nil`
interface (a Go run-time panic) is modelled as the result `none`.
-/

namespace Solid

/-- Render a natural number below 100 with exactly two digits. -/
def pad2 (n : Nat) : String :=
  (if n < 10 then "0" else "") ++ Nat.repr n

/-- Go's `fmt.Printf` verb `%.2f`: the magnitude rounded to the nearest
hundredth, rendered as sign, integer part, point, two fraction digits.
(At an exact tie this rounds the magnitude up while Go rounds to the even
digit; no value formatted by this program is a tie.) -/
def format2 (q : ℚ) : String :=
  let cents : Nat := (q.num.natAbs * 100 * 2 + q.den) / (2 * q.den)
  (if q.num < 0 then "-" else "") ++
    Nat.repr (cents / 100) ++ "." ++ pad2 (cents % 100)

/-- Go `type BookPrint struct { Title string; Author string }`
(main.go:9-12). -/
structure BookPrint where
  Title : String
  Author : String

/-- Go `func (b BookPrint) PrintDetails()`, which prints
`fmt.Printf("Title: %s, Author: %s\n", b.Title, b.Author)` (main.go:14-16). -/
def BookPrint.PrintDetails (b : BookPrint) : String :=
  "Title: " ++ b.Title ++ ", Author: " ++ b.Author

/-- Go `type RegularDiscount struct{}` (main.go:25). -/
structure RegularDiscount

/-- Go `func (r RegularDiscount) ApplyDiscount(price float64) float64
{ return price * 0.9 }` (main.go:27-29). -/
def RegularDiscount.ApplyDiscount (_ : RegularDiscount) (price : ℚ) : ℚ :=
  price * 0.9

/-- Go `type HolidayDiscount struct{}` (main.go:31). -/
structure HolidayDiscount

/-- Go `func (h HolidayDiscount) ApplyDiscount(price float64) float64
{ return price * 0.8 }` (main.go:33-35). -/
def HolidayDiscount.ApplyDiscount (_ : HolidayDiscount) (price : ℚ) : ℚ :=
  price * 0.8

/-- Go `type Square struct { Width float64 }` (main.go:43-45). -/
structure Square where
  Width : ℚ

/-- Go `func (s Square) Area() float64 { return s.Width * s.Width }`
(main.go:47-49). -/
def Square.Area (s : Square) : ℚ :=
  s.Width * s.Width

/-- Go `type Circle struct { Radius float64 }` (main.go:51-53). -/
structure Circle where
  Radius : ℚ

/-- Go `func (c Circle) Area() float64 { return 3.14 * c.Radius * c.Radius }`
(main.go:55-57); the source uses the reduced-precision constant `3.14`. -/
def Circle.Area (c : Circle) : ℚ :=
  3.14 * c.Radius * c.Radius

/-- Go `type MyPrinter struct{}` (main.go:74). -/
structure MyPrinter

/-- Go `func (p MyPrinter) Print() { fmt.Println("Printing...") }`
(main.go:76-78). -/
def MyPrinter.Print (_ : MyPrinter) : String :=
  "Printing..."

/-- Go `type MyScanner struct{}` (main.go:80). -/
structure MyScanner

/-- Go `func (s MyScanner) Scan() { fmt.Println("Scanning...") }`
(main.go:82-84). -/
def MyScanner.Scan (_ : MyScanner) : String :=
  "Scanning..."

/-- Go `type MyMultiFunctionDevice struct { MyPrinter; MyScanner }`
(main.go:86-89): a struct embedding both single-capability types, which
satisfies the union interface `MultiFunctionDevice` (main.go:69-72). -/
structure MyMultiFunctionDevice where
  toMyPrinter : MyPrinter
  toMyScanner : MyScanner

/-- Go field promotion: `d.Print()` on a `MyMultiFunctionDevice` dispatches
to the embedded `MyPrinter`'s `Print`. -/
def MyMultiFunctionDevice.Print (d : MyMultiFunctionDevice) : String :=
  d.toMyPrinter.Print

/-- Go field promotion: `d.Scan()` on a `MyMultiFunctionDevice` dispatches
to the embedded `MyScanner`'s `Scan`. -/
def MyMultiFunctionDevice.Scan (d : MyMultiFunctionDevice) : String :=
  d.toMyScanner.Scan

/-- Go `type Database struct{}` (main.go:98). -/
structure Database
deriving DecidableEq

/-- Go `func (db Database) Save(data string)`, which prints
`fmt.Println("Saving data to the database:", data)` (main.go:100-102);
`fmt.Println` joins its arguments with a single space. -/
def Database.Save (_ : Database) (data : String) : String :=
  "Saving data to the database: " ++ data

/-- Go `type Filesystem struct{}` (main.go:104). -/
structure Filesystem
deriving DecidableEq

/-- Go `func (fs Filesystem) Save(data string)`, which prints
`fmt.Println("Saving data to the filesystem:", data)` (main.go:106-108). -/
def Filesystem.Save (_ : Filesystem) (data : String) : String :=
  "Saving data to the filesystem: " ++ data

/-- The closed set of concrete types implementing the Go interface
`Storage` (main.go:94-96) in this program. -/
inductive StorageImpl where
  | db (d : Database)
  | fs (f : Filesystem)
deriving DecidableEq

/-- Dynamic dispatch of `Save` through the `Storage` interface. -/
def StorageImpl.Save : StorageImpl → String → String
  | .db d, data => d.Save data
  | .fs f, data => f.Save data

/-- A Go `Storage` interface VALUE: either `nil` (`none`) or a concrete
implementation. -/
def Storage : Type := Option StorageImpl

/-- Go `type DataManager struct { storage Storage }` (main.go:110-112). -/
structure DataManager where
  storage : Storage

/-- Go `func NewDataManager(storage Storage) *DataManager
{ return &DataManager{storage: storage} }` (main.go:114-116); no nil check
is performed, the argument is stored as given. -/
def NewDataManager (storage : Storage) : DataManager :=
  ⟨storage⟩

/-- Go `func (dm *DataManager) SaveData(data string)
{ dm.storage.Save(data) }` (main.go:118-120).  The single definition is
parametric in the stored variant: swapping variants changes only the
constructor argument, never this code.  Calling `Save` on a `nil`
interface panics in Go; the panic is modelled by the result `none`. -/
def DataManager.SaveData (dm : DataManager) (data : String) : Option String :=
  Option.map (fun s => StorageImpl.Save s data) dm.storage

/-- Go `func main()` (main.go:122-148): the sequence of lines the program
writes to standard output, in order.  The locals of `main` are inlined:
`book = BookPrint{"Clean Code", "Robert C. Martin"}`, `discountPrice =
100.0`, `square = Square{Width: 5}`, `circle = Circle{Radius: 3}`,
`multiFunctionDevice = MyMultiFunctionDevice{}`, and the two managers are
built over `Database{}` and `Filesystem{}`.  A `SaveData` call contributes
its emitted line (exactly one line here, since both managers hold non-nil
storage). -/
def mainOutput : List String :=
  [BookPrint.PrintDetails ⟨"Clean Code", "Robert C. Martin"⟩,
   "Regular Price: $" ++ format2 100 ++ ", Discounted Price: $" ++
     format2 (RegularDiscount.ApplyDiscount ⟨⟩ 100),
   "Square Area: " ++ format2 (Square.Area ⟨5⟩),
   "Circle Area: " ++ format2 (Circle.Area ⟨3⟩),
   MyMultiFunctionDevice.Print ⟨⟨⟩, ⟨⟩⟩,
   MyMultiFunctionDevice.Scan ⟨⟨⟩, ⟨⟩⟩] ++
  (DataManager.SaveData (NewDataManager (some (.db ⟨⟩)))
    "Data to save with Database storage").toList ++
  (DataManager.SaveData (NewDataManager (some (.fs ⟨⟩)))
    "Data to save with Filesystem storage").toList

/-- The two save lines differ for every payload: their fixed label parts
have different lengths (29 and 31 characters). -/
lemma save_db_ne_fs (x : String) :
    ("Saving data to the database: " ++ x) ≠
      ("Saving data to the filesystem: " ++ x) := by
  intro h
  have hl := congrArg String.length h
  rw [String.length_append, String.length_append] at hl
  have h29 : ("Saving data to the database: " : String).length = 29 := rfl
  have h31 : ("Saving data to the filesystem: " : String).length = 31 := rfl
  rw [h29, h31] at hl
  omega

/-- Distinct storage variants emit distinct lines on the same payload. -/
lemma storageImpl_save_injOn (A B : StorageImpl) (x : String) (hAB : A ≠ B) :
    StorageImpl.Save A x ≠ StorageImpl.Save B x := by
  cases A with
  | db d =>
    cases B with
    | db d' => cases d; cases d'; exact absurd rfl hAB
    | fs f' => cases d; cases f'; exact save_db_ne_fs x
  | fs f =>
    cases B with
    | db d' => cases f; cases d'; exact fun h => save_db_ne_fs x h.symm
    | fs f' => cases f; cases f'; exact absurd rfl hAB

/-- Claim C1: for every price p ≥ 0, `RegularDiscount.ApplyDiscount` returns
`0.9 * p` and `HolidayDiscount.ApplyDiscount` returns `0.8 * p`; applying
the regular discount to 100.0 produces the line
`Regular Price: $100.00, Discounted Price: $90.00`. -/
theorem discount_strategies_spec (p : ℚ) (hp : 0 ≤ p) :
    RegularDiscount.ApplyDiscount ⟨⟩ p = 0.9 * p ∧
    HolidayDiscount.ApplyDiscount ⟨⟩ p = 0.8 * p ∧
    "Regular Price: $" ++ format2 100 ++ ", Discounted Price: $" ++
        format2 (RegularDiscount.ApplyDiscount ⟨⟩ 100) =
      "Regular Price: $100.00, Discounted Price: $90.00" := by
  refine ⟨?_, ?_, ?_⟩
  · simp only [RegularDiscount.ApplyDiscount]; ring
  · simp only [HolidayDiscount.ApplyDiscount]; ring
  · have h1 : RegularDiscount.ApplyDiscount ⟨⟩ 100 = (90 : ℚ) := by
      norm_num [RegularDiscount.ApplyDiscount]
    rw [h1]
    decide

/-- Witness for C1 at the concrete price 100. -/
theorem discount_strategies_spec_witness :
    (0 : ℚ) ≤ 100 ∧
    (RegularDiscount.ApplyDiscount ⟨⟩ 100 = 0.9 * 100 ∧
     HolidayDiscount.ApplyDiscount ⟨⟩ 100 = 0.8 * 100 ∧
     "Regular Price: $" ++ format2 100 ++ ", Discounted Price: $" ++
         format2 (RegularDiscount.ApplyDiscount ⟨⟩ 100) =
       "Regular Price: $100.00, Discounted Price: $90.00") :=
  ⟨by norm_num, discount_strategies_spec 100 (by norm_num)⟩

/-- Claim C2: for every width w ≥ 0 the square's area is w·w, and for every
radius r ≥ 0 the circle's area is 3.14·r·r (the reduced-precision constant
from the source); a square of width 5 formats as 25.00 and a circle of
radius 3 as 28.26. -/
theorem shape_area_spec (w r : ℚ) (hw : 0 ≤ w) (hr : 0 ≤ r) :
    Square.Area ⟨w⟩ = w * w ∧
    Circle.Area ⟨r⟩ = 3.14 * r * r ∧
    "Square Area: " ++ format2 (Square.Area ⟨5⟩) = "Square Area: 25.00" ∧
    "Circle Area: " ++ format2 (Circle.Area ⟨3⟩) = "Circle Area: 28.26" := by
  refine ⟨rfl, rfl, ?_, ?_⟩
  · have h2 : Square.Area ⟨5⟩ = (25 : ℚ) := by norm_num [Square.Area]
    rw [h2]
    decide
  · have h3 : Circle.Area ⟨3⟩ = mkRat 1413 50 := by
      rw [Rat.mkRat_eq_div]; norm_num [Circle.Area]
    rw [h3]
    decide

/-- Witness for C2 at width 5 and radius 3. -/
theorem shape_area_spec_witness :
    ((0 : ℚ) ≤ 5 ∧ (0 : ℚ) ≤ 3) ∧
    (Square.Area ⟨5⟩ = 5 * 5 ∧
     Circle.Area ⟨3⟩ = 3.14 * 3 * 3 ∧
     "Square Area: " ++ format2 (Square.Area ⟨5⟩) = "Square Area: 25.00" ∧
     "Circle Area: " ++ format2 (Circle.Area ⟨3⟩) = "Circle Area: 28.26") :=
  ⟨⟨by norm_num, by norm_num⟩, shape_area_spec 5 3 (by norm_num) (by norm_num)⟩

/-- Claim C3: dependency inversion — a manager constructed over variant A
forwards `SaveData x` to exactly A's `Save x`, one constructed over B to
exactly B's, and for distinct variants the emitted lines are distinct, so
neither manager ever produces the other variant's line.  `SaveData` is one
parametric definition, unchanged under the swap. -/
theorem dependency_inversion_substitution (A B : StorageImpl) (x : String)
    (hAB : A ≠ B) :
    DataManager.SaveData (NewDataManager (some A)) x =
        some (StorageImpl.Save A x) ∧
    DataManager.SaveData (NewDataManager (some B)) x =
        some (StorageImpl.Save B x) ∧
    StorageImpl.Save A x ≠ StorageImpl.Save B x :=
  ⟨rfl, rfl, storageImpl_save_injOn A B x hAB⟩

/-- Witness for C3 with A the database variant, B the filesystem variant
and payload "X". -/
theorem dependency_inversion_substitution_witness :
    (StorageImpl.db ⟨⟩ ≠ StorageImpl.fs ⟨⟩) ∧
    (DataManager.SaveData (NewDataManager (some (.db ⟨⟩))) "X" =
         some (StorageImpl.Save (.db ⟨⟩) "X") ∧
     DataManager.SaveData (NewDataManager (some (.fs ⟨⟩))) "X" =
         some (StorageImpl.Save (.fs ⟨⟩) "X") ∧
     StorageImpl.Save (.db ⟨⟩) "X" ≠ StorageImpl.Save (.fs ⟨⟩) "X") :=
  ⟨by decide,
   dependency_inversion_substitution (.db ⟨⟩) (.fs ⟨⟩) "X" (by decide)⟩

/-- Claim C4: for every pair of strings, `PrintDetails` produces exactly the
line `Title: <title>, Author: <author>`, containing both fields verbatim
(as contiguous substrings), and the Clean Code record yields exactly
`Title: Clean Code, Author: Robert C. Martin`. -/
theorem book_print_details_spec (t a : String) :
    BookPrint.PrintDetails ⟨t, a⟩ = "Title: " ++ t ++ ", Author: " ++ a ∧
    (∃ l r, BookPrint.PrintDetails ⟨t, a⟩ = l ++ t ++ r) ∧
    (∃ l, BookPrint.PrintDetails ⟨t, a⟩ = l ++ a) ∧
    BookPrint.PrintDetails ⟨"Clean Code", "Robert C. Martin"⟩ =
      "Title: Clean Code, Author: Robert C. Martin" := by
  refine ⟨rfl, ⟨"Title: ", ", Author: " ++ a, ?_⟩,
    ⟨"Title: " ++ t ++ ", Author: ", rfl⟩, rfl⟩
  exact String.append_assoc ("Title: " ++ t) ", Author: " a

/-- Claim C5: `Database.Save` emits exactly the database-labelled line and
`Filesystem.Save` exactly the filesystem-labelled line for every payload;
saving "X" through the filesystem-backed manager yields exactly the
filesystem line, and the filesystem line is never the database line. -/
theorem storage_save_lines_spec (data : String) :
    Database.Save ⟨⟩ data = "Saving data to the database: " ++ data ∧
    Filesystem.Save ⟨⟩ data = "Saving data to the filesystem: " ++ data ∧
    DataManager.SaveData (NewDataManager (some (.fs ⟨⟩))) "X" =
      some "Saving data to the filesystem: X" ∧
    Filesystem.Save ⟨⟩ data ≠ Database.Save ⟨⟩ data :=
  ⟨rfl, rfl, rfl, fun h => save_db_ne_fs data h.symm⟩

/-- Claim C6 (counterexample): the claim "every operation of every component
always succeeds for all representable inputs" fails — `SaveData` on a
manager built over a nil storage interface does not succeed (it panics,
modelled as `none`). -/
theorem all_operations_succeed_cex :
    (DataManager.SaveData (NewDataManager none) "boom").isSome = false :=
  rfl

/-- Claim C6 (amended): every operation is a pure function of its inputs
(hence deterministic), and every operation always succeeds except
`DataManager.SaveData` on a nil-backed manager: `SaveData` succeeds exactly
when the bound storage is non-nil, in which case it returns the bound
variant's line. -/
theorem operations_deterministic_total_except_nil (dm : DataManager)
    (x : String) :
    (dm.SaveData x).isSome = (dm.storage).isSome ∧
    (∀ s : StorageImpl,
      DataManager.SaveData (NewDataManager (some s)) x =
        some (StorageImpl.Save s x)) := by
  refine ⟨?_, fun s => rfl⟩
  cases dm with
  | mk st => cases st <;> rfl

/-- Claim C7: the entry point's standard output is exactly the fixed
sequence of eight lines, in order. -/
theorem main_output_fixed :
    mainOutput =
      ["Title: Clean Code, Author: Robert C. Martin",
       "Regular Price: $100.00, Discounted Price: $90.00",
       "Square Area: 25.00",
       "Circle Area: 28.26",
       "Printing...",
       "Scanning...",
       "Saving data to the database: Data to save with Database storage",
       "Saving data to the filesystem: Data to save with Filesystem storage"] := by
  have h1 : RegularDiscount.ApplyDiscount ⟨⟩ 100 = (90 : ℚ) := by
    norm_num [RegularDiscount.ApplyDiscount]
  have h2 : Square.Area ⟨5⟩ = (25 : ℚ) := by norm_num [Square.Area]
  have h3 : Circle.Area ⟨3⟩ = mkRat 1413 50 := by
    rw [Rat.mkRat_eq_div]; norm_num [Circle.Area]
  simp only [mainOutput, h1, h2, h3]
  decide

/-- Claim C8: the print capability writes exactly `Printing...`, the scan
capability exactly `Scanning...`; the combined device satisfies the union
by composing the two implementations, and each method behaves identically
whether invoked through the union type or through its own capability. -/
theorem capability_methods_spec (d : MyMultiFunctionDevice) :
    MyPrinter.Print ⟨⟩ = "Printing..." ∧
    MyScanner.Scan ⟨⟩ = "Scanning..." ∧
    d.Print = d.toMyPrinter.Print ∧
    d.Scan = d.toMyScanner.Scan ∧
    d.Print = "Printing..." ∧
    d.Scan = "Scanning..." :=
  ⟨rfl, rfl, rfl, rfl, rfl, rfl⟩

/-- Claim C9: the "bound backend cannot be null" invariant is not enforced —
`NewDataManager` stores a nil storage unchecked, and `SaveData` on such a
manager panics (modelled as `none`) for every payload rather than
succeeding. -/
theorem nil_storage_unenforced :
    (NewDataManager none).storage = none ∧
    ∀ data, DataManager.SaveData (NewDataManager none) data = none :=
  ⟨rfl, fun _ => rfl⟩

/-- Claim C10: implicit field promotion equals explicit delegation — the
zero-field combined device's `Print` and `Scan` produce exactly the outputs
of the zero-field `MyPrinter` and `MyScanner`. -/
theorem promotion_equals_delegation :
    MyMultiFunctionDevice.Print ⟨⟨⟩, ⟨⟩⟩ = MyPrinter.Print ⟨⟩ ∧
    MyMultiFunctionDevice.Scan ⟨⟨⟩, ⟨⟩⟩ = MyScanner.Scan ⟨⟩ :=
  ⟨rfl, rfl⟩

end Solid
